import Mathlib

/-!
Shallow embedding of src/Enviroment/fixed_timer.py, a fixed-time traffic
light controller for a road-network simulator.  The configuration constants
(TRAFFIC_LIGHTS, PHASE_1..PHASE_3, PHASES, SIMULATION_TIME), the validator
`validate_state`, the segment-walking resolution inside `run_simulation`,
and the control loop's per-tick body are translated directly from the
Python source.  The external simulator is modelled as an association list
from traffic-light id to its currently displayed signal string, together
with an explicit list of the `setRedYellowGreenState` pushes each tick
performs.
-/

namespace FixedTimer

/-- Configuration constant TRAFFIC_LIGHTS (fixed_timer.py lines 16-22):
traffic-light id mapped to its expected signal-string length. -/
def TRAFFIC_LIGHTS : List (String × Nat) :=
  [("T1", 3), ("T2", 2), ("T3", 3), ("T4", 2), ("T5", 1)]

/-- Configuration constant SIMULATION_TIME (fixed_timer.py line 13). -/
def SIMULATION_TIME : Nat := 58500

/-- PHASE_1 (lines 25-31): per-intersection list of (signal string, duration)
segments. -/
def PHASE_1 : List (String × List (String × Nat)) :=
  [("T1", [("rrr", 15), ("ggg", 40), ("yyy", 5)]),
   ("T2", [("rr", 60)]),
   ("T3", [("rrr", 60)]),
   ("T4", [("gg", 55), ("yy", 5)]),
   ("T5", [("g", 10), ("r", 15), ("g", 25), ("y", 5)])]

/-- PHASE_2 (lines 33-39). -/
def PHASE_2 : List (String × List (String × Nat)) :=
  [("T1", [("rrr", 15), ("ggg", 40), ("yyy", 5)]),
   ("T2", [("gg", 55), ("yy", 5)]),
   ("T3", [("rrr", 60)]),
   ("T4", [("rr", 60)]),
   ("T5", [("g", 10), ("r", 15), ("g", 25), ("y", 5)])]

/-- PHASE_3 (lines 41-47). -/
def PHASE_3 : List (String × List (String × Nat)) :=
  [("T1", [("rrr", 30), ("ggg", 10), ("yyy", 5), ("rrr", 15)]),
   ("T2", [("rr", 60)]),
   ("T3", [("ggg", 55), ("yyy", 5)]),
   ("T4", [("rr", 60)]),
   ("T5", [("g", 10), ("r", 15), ("g", 25), ("y", 5)])]

/-- One entry of the PHASES list (lines 49-53): a duration, a patterns
mapping, and a name. -/
structure Phase where
  duration : Nat
  patterns : List (String × List (String × Nat))
  name : String
deriving DecidableEq

/-- PHASES (lines 49-53): the configured cycle of three phases. -/
def PHASES : List Phase :=
  [⟨60, PHASE_1, "Phase 1"⟩, ⟨60, PHASE_2, "Phase 2"⟩, ⟨60, PHASE_3, "Phase 3"⟩]

/-- Python PHASES[i]; every reachable index satisfies i < 3, so the default
is never consulted on reachable states. -/
def getPhase (i : Nat) : Phase :=
  PHASES.getD i ⟨0, [], ""⟩

/-- Python TRAFFIC_LIGHTS.get(tl_id, 0) (line 57): expected signal length,
defaulting to 0 for an id absent from the mapping. -/
def expectedLen (tl_id : String) : Nat :=
  match TRAFFIC_LIGHTS.find? (fun p => p.1 == tl_id) with
  | some p => p.2
  | none => 0

/-- validate_state (lines 55-66): return the state unchanged when its length
matches the expected length, otherwise return a hardcoded all-red fallback
chosen by the expected length (3 gives "rrr", 2 gives "rr", anything else
gives "r"). -/
def validate_state (tl_id : String) (state : String) : String :=
  let expected_len := expectedLen tl_id
  if state.length != expected_len then
    if expected_len == 3 then "rrr"
    else if expected_len == 2 then "rr"
    else "r"
  else state

/-- Sum of the segment durations of a pattern. -/
def durSum : List (String × Nat) → Nat
  | [] => 0
  | (_, d) :: rest => d + durSum rest

/-- The segment walk of lines 155-162: running remainder initialised to
elapsed; return a segment's string when the remainder is below its duration,
else subtract and continue; `none` when the list is exhausted (the Python
for-loop falls through without a break and no state is set). -/
def resolve_state : List (String × Nat) → Nat → Option String
  | [], _ => none
  | (st, d) :: rest, elapsed =>
    if elapsed < d then some st
    else resolve_state rest (elapsed - d)

/-- The phase-boundary test of line 131: time in phase has reached the
phase's duration. -/
def has_phase_elapsed (ph : Phase) (elapsed : Nat) : Bool :=
  decide (ph.duration ≤ elapsed)

/-- Simulator signal-state lookup (traci getRedYellowGreenState), modelled
over an association list of currently displayed strings. -/
def lookupState (states : List (String × String)) (tl_id : String) : String :=
  match states.find? (fun p => p.1 == tl_id) with
  | some p => p.2
  | none => ""

/-- Simulator signal-state update (traci setRedYellowGreenState). -/
def setState : List (String × String) → String → String → List (String × String)
  | [], tl_id, s => [(tl_id, s)]
  | (k, v) :: rest, tl_id, s =>
    if k == tl_id then (k, s) :: rest else (k, v) :: setState rest tl_id s

/-- The apply-new-phase block of lines 139-146 (also the initial setup of
lines 112-121): for each controlled id with a non-empty pattern in the
phase, validate the first segment's string and push it unconditionally.
Returns the updated simulator states and the ordered list of pushes. -/
def applyPhase (patterns : List (String × List (String × Nat))) :
    List String → List (String × String) →
    List (String × String) × List (String × String)
  | [], states => (states, [])
  | tl :: rest, states =>
    match patterns.find? (fun p => p.1 == tl) with
    | none => applyPhase patterns rest states
    | some pr =>
      match pr.2 with
      | [] => applyPhase patterns rest states
      | (st, _) :: _ =>
        let valid := validate_state tl st
        let r := applyPhase patterns rest (setState states tl valid)
        (r.1, (tl, valid) :: r.2)

/-- The per-intersection update loop of lines 149-162: resolve the current
segment by the walk, validate, read the simulator's current string, and push
only when the validated string differs.  Returns the updated simulator
states and the ordered list of pushes. -/
def updateTLs (patterns : List (String × List (String × Nat))) (elapsed : Nat) :
    List String → List (String × String) →
    List (String × String) × List (String × String)
  | [], states => (states, [])
  | tl :: rest, states =>
    match patterns.find? (fun p => p.1 == tl) with
    | none => updateTLs patterns elapsed rest states
    | some pr =>
      match resolve_state pr.2 elapsed with
      | none => updateTLs patterns elapsed rest states
      | some st =>
        let valid := validate_state tl st
        if lookupState states tl != valid then
          let r := updateTLs patterns elapsed rest (setState states tl valid)
          (r.1, (tl, valid) :: r.2)
        else updateTLs patterns elapsed rest states

/-- The mutable loop state of run_simulation (lines 104-106) together with
the simulator's per-id displayed strings. -/
structure RunState where
  step : Nat
  current_phase : Nat
  phase_start_time : Nat
  tl_states : List (String × String)
deriving DecidableEq

/-- Line 127: time_in_phase = step - phase_start_time, computed once per
tick.  Line 154 reuses this very value as the walk's elapsed (it is not
recomputed after the phase-transition block resets phase_start_time). -/
def tickUpdateElapsed (s : RunState) : Nat :=
  s.step - s.phase_start_time

/-- One iteration of the main loop body (lines 125-177, printing omitted):
check the boundary; on a crossing, advance the phase index modulo the cycle
length, set phase_start_time to the current step, and run the apply-new-phase
block; then, either way, run the per-intersection update loop with the elapsed
value computed at the top of the tick; finally increment step.  Returns the
new state and the ordered pushes of the tick. -/
def tick (tls : List String) (s : RunState) :
    RunState × List (String × String) :=
  if has_phase_elapsed (getPhase s.current_phase) (tickUpdateElapsed s) then
    let p := (s.current_phase + 1) % PHASES.length
    let ap := applyPhase (getPhase p).patterns tls s.tl_states
    let up := updateTLs (getPhase p).patterns (tickUpdateElapsed s) tls ap.1
    (⟨s.step + 1, p, s.step, up.1⟩, ap.2 ++ up.2)
  else
    let up :=
      updateTLs (getPhase s.current_phase).patterns (tickUpdateElapsed s) tls
        s.tl_states
    (⟨s.step + 1, s.current_phase, s.phase_start_time, up.1⟩, up.2)

/-- A push list is redundancy-free from a starting simulator state when each
push in order changes the string its id currently displays. -/
def noRedundant (states : List (String × String)) :
    List (String × String) → Bool
  | [] => true
  | (tl, v) :: rest =>
    (lookupState states tl != v) && noRedundant (setState states tl v) rest

/-- The while-loop counter of line 124: starting from `step` with the given
fuel, count body executions of `while step < SIMULATION_TIME and
minExpected(step) > 0`, where `minExpected k` is the collaborator's
remaining-entities report at the guard evaluation with counter k. -/
def runLoop (minExpected : Nat → Nat) : Nat → Nat → Nat
  | _, 0 => 0
  | step, fuel + 1 =>
    if step < SIMULATION_TIME ∧ 0 < minExpected step then
      runLoop minExpected (step + 1) fuel + 1
    else 0

/-- Number of loop-body executions of the main loop, starting at step 0. -/
def loopIters (minExpected : Nat → Nat) : Nat :=
  runLoop minExpected 0 SIMULATION_TIME

/-- Ways the body of run_simulation's try block can finish (lines 77-179):
normal completion, the early return after zero controllable lights is
detected (lines 96-99, which itself calls close before returning), a fatal
TraCI error, or any other exception. -/
inductive BodyOutcome
  | normal
  | earlyReturnNoTls
  | fatalTraci
  | otherError
deriving DecidableEq

/-- Outcome of a modelled Python block: finished, or an exception of the
given kind is propagating. -/
inductive Flow
  | done
  | raised (kind : String)
deriving DecidableEq

/-- The try-block body (lines 78-179): its log of close attempts and its
exception flow.  The earlyReturnNoTls path performs the explicit close of
line 98 before returning. -/
def bodyRun : BodyOutcome → List String × Flow
  | .normal => ([], .done)
  | .earlyReturnNoTls => (["close"], .done)
  | .fatalTraci => ([], .raised "FatalTraCIError")
  | .otherError => ([], .raised "Exception")

/-- The two except clauses (lines 181-189): both print and fall through, so
a FatalTraCIError or any other Exception is handled; anything else keeps
propagating. -/
def exceptClauses : Flow → Flow
  | .done => .done
  | .raised k =>
    if k == "FatalTraCIError" then .done
    else if k == "Exception" then .done
    else .raised k

/-- The finally block (lines 191-196): attempt traci.close inside an inner
try whose bare except swallows any failure.  Returns the close-attempt log
and the block's own flow, which is always done. -/
def finallyBlock (closeFails : Bool) : List String × Flow :=
  let closeResult : Flow := if closeFails then .raised "CloseError" else .done
  (["close"],
   match closeResult with
   | .done => .done
   | .raised _ => .done)

/-- Python try/except/finally composition for run_simulation: run the body,
pass any exception through the except clauses, then run the finally block
unconditionally; a raise inside finally would replace the pending flow,
otherwise the pending flow stands. -/
def run_simulation_model (outcome : BodyOutcome) (closeFails : Bool) :
    List String × Flow :=
  let b := bodyRun outcome
  let afterExcept := exceptClauses b.2
  let f := finallyBlock closeFails
  (b.1 ++ f.1,
   match f.2 with
   | .raised k => .raised k
   | .done => afterExcept)

/-! Helper lemmas about the segment walk. -/

theorem resolve_state_none_of_le {pat : List (String × Nat)} {elapsed : Nat}
    (h : durSum pat ≤ elapsed) : resolve_state pat elapsed = none := by
  induction pat generalizing elapsed with
  | nil => rfl
  | cons hd rest ih =>
    obtain ⟨st, d⟩ := hd
    simp only [durSum] at h
    simp only [resolve_state]
    rw [if_neg (by omega)]
    exact ih (by omega)

theorem resolve_state_isSome_of_lt {pat : List (String × Nat)} {elapsed : Nat}
    (h : elapsed < durSum pat) : (resolve_state pat elapsed).isSome = true := by
  induction pat generalizing elapsed with
  | nil => simp [durSum] at h
  | cons hd rest ih =>
    obtain ⟨st, d⟩ := hd
    simp only [durSum] at h
    simp only [resolve_state]
    by_cases hc : elapsed < d
    · rw [if_pos hc]; rfl
    · rw [if_neg hc]; exact ih (by omega)

/-! Helper lemmas about the per-tick loops and the configured schedule. -/

theorem phase_duration_eq : ∀ i, i < PHASES.length → (getPhase i).duration = 60 := by
  decide

theorem patterns_durSum_le :
    ∀ i, i < PHASES.length → ∀ pr ∈ (getPhase i).patterns, durSum pr.2 ≤ 60 := by
  decide

theorem updateTLs_exhausted (patterns : List (String × List (String × Nat)))
    (elapsed : Nat) (tls : List String) (states : List (String × String))
    (h : ∀ pr ∈ patterns, durSum pr.2 ≤ elapsed) :
    updateTLs patterns elapsed tls states = (states, []) := by
  induction tls generalizing states with
  | nil => rfl
  | cons tl rest ih =>
    simp only [updateTLs]
    split
    · exact ih states
    next pr hf =>
      have hres : resolve_state pr.2 elapsed = none :=
        resolve_state_none_of_le (h pr (List.mem_of_find?_eq_some hf))
      rw [hres]
      exact ih states

theorem updateTLs_noRedundant (patterns : List (String × List (String × Nat)))
    (elapsed : Nat) (tls : List String) (states : List (String × String)) :
    noRedundant states (updateTLs patterns elapsed tls states).2 = true := by
  induction tls generalizing states with
  | nil => rfl
  | cons tl rest ih =>
    simp only [updateTLs]
    split
    · exact ih states
    next pr hf =>
      split
      · exact ih states
      next st hr =>
        split
        next hc =>
          show ((lookupState states tl != validate_state tl st) &&
              noRedundant (setState states tl (validate_state tl st))
                (updateTLs patterns elapsed rest
                  (setState states tl (validate_state tl st))).2) = true
          rw [hc, Bool.true_and]
          exact ih (setState states tl (validate_state tl st))
        next hc => exact ih states

/-- C2.  Counterexample to the claim that for every phase and every
intersection with a Program, the sum of the Program's segment durations
equals the phase's duration: in the first configured phase, T5's segments
sum to 55 while the phase's duration is 60. -/
theorem C2_counterexample :
    (getPhase 0).patterns.find? (fun p => p.1 == "T5") =
      some ("T5", [("g", 10), ("r", 15), ("g", 25), ("y", 5)]) ∧
    durSum [("g", 10), ("r", 15), ("g", 25), ("y", 5)] = 55 ∧
    (getPhase 0).duration = 60 := by
  refine ⟨by decide, by decide, by decide⟩

/-- C2 (amended).  For every phase of the configured schedule and every
intersection with a Program in it, the sum of the Program's segment
durations equals the phase's duration for every intersection except T5;
T5's Program sums to 55 in every phase while each phase's duration is
60. -/
theorem C2_segment_sum_amended (ph : Phase) (hph : ph ∈ PHASES)
    (pr : String × List (String × Nat)) (hpr : pr ∈ ph.patterns) :
    (pr.1 ≠ "T5" → durSum pr.2 = ph.duration) ∧
    (pr.1 = "T5" → durSum pr.2 = 55 ∧ ph.duration = 60) := by
  revert hpr
  revert pr
  revert hph
  revert ph
  decide

/-- C2 witness: the amended statement evaluated on the first phase's T1
Program and on its T5 Program. -/
theorem C2_segment_sum_amended_witness :
    (⟨60, PHASE_1, "Phase 1"⟩ : Phase) ∈ PHASES ∧
    ("T5", [("g", 10), ("r", 15), ("g", 25), ("y", 5)]) ∈
      (⟨60, PHASE_1, "Phase 1"⟩ : Phase).patterns ∧
    ((("T5", [("g", 10), ("r", 15), ("g", 25), ("y", 5)]).1 ≠ "T5" →
        durSum ("T5", [("g", 10), ("r", 15), ("g", 25), ("y", 5)]).2 =
          (⟨60, PHASE_1, "Phase 1"⟩ : Phase).duration) ∧
      (("T5", [("g", 10), ("r", 15), ("g", 25), ("y", 5)]).1 = "T5" →
        durSum ("T5", [("g", 10), ("r", 15), ("g", 25), ("y", 5)]).2 = 55 ∧
          (⟨60, PHASE_1, "Phase 1"⟩ : Phase).duration = 60)) :=
  ⟨by decide, by decide,
    C2_segment_sum_amended ⟨60, PHASE_1, "Phase 1"⟩ (by decide)
      ("T5", [("g", 10), ("r", 15), ("g", 25), ("y", 5)]) (by decide)⟩

/-- C3.  Counterexample to resolution totality on `0 ≤ elapsed < duration`:
in the first configured phase (duration 60) T5 has a Program, yet the
segment walk at elapsed 55 exhausts the segment list and returns no
string. -/
theorem C3_counterexample :
    (getPhase 0).patterns.find? (fun p => p.1 == "T5") =
      some ("T5", [("g", 10), ("r", 15), ("g", 25), ("y", 5)]) ∧
    (55 : Nat) < (getPhase 0).duration ∧
    resolve_state [("g", 10), ("r", 15), ("g", 25), ("y", 5)] 55 = none := by
  refine ⟨by decide, by decide, by decide⟩

/-- C3 (amended).  For every phase of the schedule, every intersection with
a Program in it, and every elapsed below the sum of that Program's segment
durations (rather than below the phase's duration — the two bounds agree
for every intersection except T5, whose Programs sum to 55 of the 60-tick
phases), the segment walk returns a well-defined signal string. -/
theorem C3_resolution_total_amended (ph : Phase) (_hph : ph ∈ PHASES)
    (pr : String × List (String × Nat)) (_hpr : pr ∈ ph.patterns)
    (elapsed : Nat) (h : elapsed < durSum pr.2) :
    (resolve_state pr.2 elapsed).isSome = true :=
  resolve_state_isSome_of_lt h

/-- C3 witness: the amended statement evaluated on the first phase's T5
Program at elapsed 54. -/
theorem C3_resolution_total_amended_witness :
    (⟨60, PHASE_1, "Phase 1"⟩ : Phase) ∈ PHASES ∧
    ("T5", [("g", 10), ("r", 15), ("g", 25), ("y", 5)]) ∈
      (⟨60, PHASE_1, "Phase 1"⟩ : Phase).patterns ∧
    (54 : Nat) < durSum ("T5", [("g", 10), ("r", 15), ("g", 25), ("y", 5)]).2 ∧
    (resolve_state ("T5", [("g", 10), ("r", 15), ("g", 25), ("y", 5)]).2
        54).isSome = true :=
  ⟨by decide, by decide, by decide,
    C3_resolution_total_amended ⟨60, PHASE_1, "Phase 1"⟩ (by decide)
      ("T5", [("g", 10), ("r", 15), ("g", 25), ("y", 5)]) (by decide) 54
      (by decide)⟩

/-- C5.  For every id present in the configured length mapping and every
candidate string whose length differs from the id's expected length, the
validator returns the all-red string of exactly the expected length (and
being a total function it raises nothing).  The absent-id case, where the
expected length defaults to 0, is treated separately (see the C10
theorem). -/
theorem C5_validator_fallback (tl_id state : String)
    (hmem : (TRAFFIC_LIGHTS.find? (fun p => p.1 == tl_id)).isSome = true)
    (hlen : state.length ≠ expectedLen tl_id) :
    validate_state tl_id state =
      String.mk (List.replicate (expectedLen tl_id) 'r') := by
  obtain ⟨p, hp⟩ := Option.isSome_iff_exists.mp hmem
  have hexp : expectedLen tl_id = p.2 := by simp [expectedLen, hp]
  have hmem2 : p ∈ TRAFFIC_LIGHTS := List.mem_of_find?_eq_some hp
  have h3 : p.2 = 3 ∨ p.2 = 2 ∨ p.2 = 1 := by fin_cases hmem2 <;> simp
  rw [hexp] at hlen
  rcases h3 with h | h | h <;> rw [h] at hexp hlen <;>
    simp [validate_state, hexp, hlen]

/-- C5 witness: the fallback at T5 (expected length 1) on the two-character
candidate "gg" is the all-red string "r" of length 1. -/
theorem C5_validator_fallback_witness :
    (TRAFFIC_LIGHTS.find? (fun p => p.1 == "T5")).isSome = true ∧
    ("gg" : String).length ≠ expectedLen "T5" ∧
    validate_state "T5" "gg" =
      String.mk (List.replicate (expectedLen "T5") 'r') :=
  ⟨by decide, by decide, C5_validator_fallback "T5" "gg" (by decide) (by decide)⟩

/-- C6.  For every id and every candidate string whose length equals the
id's expected length, the validator returns the string unchanged. -/
theorem C6_validator_identity (tl_id state : String)
    (h : state.length = expectedLen tl_id) :
    validate_state tl_id state = state := by
  simp [validate_state, h]

/-- C6 witness: the validator is the identity on T1's well-formed candidate
"ggg". -/
theorem C6_validator_identity_witness :
    ("ggg" : String).length = expectedLen "T1" ∧
    validate_state "T1" "ggg" = "ggg" :=
  ⟨by decide, C6_validator_identity "T1" "ggg" (by decide)⟩

/-- C8.  Whenever the current phase index is N-1 for the N-phase schedule
and the boundary test fires, the tick's resulting phase index is 0: the
cycle wraps modulo the cycle length. -/
theorem C8_cycle_wraparound (tls : List String) (s : RunState)
    (h1 : s.current_phase = PHASES.length - 1)
    (h2 : has_phase_elapsed (getPhase s.current_phase)
      (tickUpdateElapsed s) = true) :
    (tick tls s).1.current_phase = 0 := by
  simp only [tick, h2, if_true]
  rw [h1]
  decide

/-- C8 witness: a state in the last phase at its boundary wraps to phase
index 0. -/
theorem C8_cycle_wraparound_witness :
    (⟨60, 2, 0, []⟩ : RunState).current_phase = PHASES.length - 1 ∧
    has_phase_elapsed (getPhase (⟨60, 2, 0, []⟩ : RunState).current_phase)
      (tickUpdateElapsed ⟨60, 2, 0, []⟩) = true ∧
    (tick [] ⟨60, 2, 0, []⟩).1.current_phase = 0 :=
  ⟨by decide, by decide,
    C8_cycle_wraparound [] ⟨60, 2, 0, []⟩ (by decide) (by decide)⟩

/-- C10.  When the validator is called with an id absent from the
configured length mapping, the expected length defaults to 0, every
candidate of nonzero length takes the fallback branch and receives "r" of
length 1 (not length 0), and the empty candidate is returned unchanged. -/
theorem C10_absent_id_fallback (tl_id state : String)
    (hfind : TRAFFIC_LIGHTS.find? (fun p => p.1 == tl_id) = none)
    (hne : state.length ≠ 0) :
    expectedLen tl_id = 0 ∧ validate_state tl_id state = "r" ∧
    (validate_state tl_id state).length = 1 ∧
    validate_state tl_id "" = "" := by
  have hexp : expectedLen tl_id = 0 := by simp [expectedLen, hfind]
  have h2 : validate_state tl_id state = "r" := by
    simp [validate_state, hexp, hne]
  refine ⟨hexp, h2, by rw [h2]; rfl, by simp [validate_state, hexp]⟩

/-- C10 witness: the unconfigured id "X" with candidate "abc" receives the
length-1 fallback "r", while the empty candidate passes through. -/
theorem C10_absent_id_fallback_witness :
    TRAFFIC_LIGHTS.find? (fun p => p.1 == "X") = none ∧
    ("abc" : String).length ≠ 0 ∧
    (expectedLen "X" = 0 ∧ validate_state "X" "abc" = "r" ∧
      (validate_state "X" "abc").length = 1 ∧ validate_state "X" "" = "") :=
  ⟨by decide, by decide, C10_absent_id_fallback "X" "abc" (by decide) (by decide)⟩

/-- C1.  Counterexample to the claim that a boundary tick recomputes
elapsed to 0 and resolves with it: at step 60 of phase 0 (started at tick
0) the boundary test fires, yet the elapsed value the tick's resolution
reuses is the stale 60, not 0, and with it the segment walk of every
Program of the new phase exhausts its list with no match. -/
theorem C1_counterexample :
    has_phase_elapsed (getPhase (⟨60, 0, 0, []⟩ : RunState).current_phase)
      (tickUpdateElapsed ⟨60, 0, 0, []⟩) = true ∧
    tickUpdateElapsed ⟨60, 0, 0, []⟩ = 60 ∧
    tickUpdateElapsed ⟨60, 0, 0, []⟩ ≠ 0 ∧
    (tick [] ⟨60, 0, 0, []⟩).1.current_phase = 1 ∧
    (∀ pr ∈ (getPhase 1).patterns,
      resolve_state pr.2 (tickUpdateElapsed ⟨60, 0, 0, []⟩) = none) := by
  refine ⟨by decide, by decide, by decide, by decide, by decide⟩

/-- C1 (amended).  On every boundary tick the loop advances the phase index
modulo the cycle length and sets the phase-start tick to the current tick,
but elapsed is not recomputed: the per-intersection resolution later in the
same tick reuses the stale value (which is nonzero, being at least the old
phase's duration), its segment walk matches no segment, and consequently
the tick's pushes and resulting signal states are exactly those of the
phase-entry block. -/
theorem C1_phase_transition_amended (tls : List String) (s : RunState)
    (h1 : s.current_phase < PHASES.length)
    (h2 : has_phase_elapsed (getPhase s.current_phase)
      (tickUpdateElapsed s) = true) :
    (tick tls s).1.current_phase = (s.current_phase + 1) % PHASES.length ∧
    (tick tls s).1.phase_start_time = s.step ∧
    tickUpdateElapsed s ≠ 0 ∧
    (tick tls s).2 =
      (applyPhase (getPhase ((s.current_phase + 1) % PHASES.length)).patterns
        tls s.tl_states).2 ∧
    (tick tls s).1.tl_states =
      (applyPhase (getPhase ((s.current_phase + 1) % PHASES.length)).patterns
        tls s.tl_states).1 := by
  have hge : (getPhase s.current_phase).duration ≤ tickUpdateElapsed s :=
    of_decide_eq_true h2
  have h60 : 60 ≤ tickUpdateElapsed s := by
    rw [phase_duration_eq s.current_phase h1] at hge
    exact hge
  have hnp : (s.current_phase + 1) % PHASES.length < PHASES.length :=
    Nat.mod_lt _ (by decide)
  have hup := updateTLs_exhausted
    (getPhase ((s.current_phase + 1) % PHASES.length)).patterns
    (tickUpdateElapsed s) tls
    (applyPhase (getPhase ((s.current_phase + 1) % PHASES.length)).patterns
      tls s.tl_states).1
    (fun pr hpr => le_trans (patterns_durSum_le _ hnp pr hpr) h60)
  unfold tick
  rw [if_pos h2]
  dsimp only
  rw [hup]
  refine ⟨rfl, rfl, by omega, by simp, rfl⟩

/-- C1 witness: the amended statement evaluated on the concrete boundary
state at step 60 of phase 0 with the single controlled id T2. -/
theorem C1_phase_transition_amended_witness :
    (⟨60, 0, 0, []⟩ : RunState).current_phase < PHASES.length ∧
    has_phase_elapsed (getPhase (⟨60, 0, 0, []⟩ : RunState).current_phase)
      (tickUpdateElapsed ⟨60, 0, 0, []⟩) = true ∧
    ((tick ["T2"] ⟨60, 0, 0, []⟩).1.current_phase =
        ((⟨60, 0, 0, []⟩ : RunState).current_phase + 1) % PHASES.length ∧
      (tick ["T2"] ⟨60, 0, 0, []⟩).1.phase_start_time =
        (⟨60, 0, 0, []⟩ : RunState).step ∧
      tickUpdateElapsed ⟨60, 0, 0, []⟩ ≠ 0 ∧
      (tick ["T2"] ⟨60, 0, 0, []⟩).2 =
        (applyPhase (getPhase (((⟨60, 0, 0, []⟩ : RunState).current_phase + 1) %
            PHASES.length)).patterns ["T2"]
          (⟨60, 0, 0, []⟩ : RunState).tl_states).2 ∧
      (tick ["T2"] ⟨60, 0, 0, []⟩).1.tl_states =
        (applyPhase (getPhase (((⟨60, 0, 0, []⟩ : RunState).current_phase + 1) %
            PHASES.length)).patterns ["T2"]
          (⟨60, 0, 0, []⟩ : RunState).tl_states).1) :=
  ⟨by decide, by decide,
    C1_phase_transition_amended ["T2"] ⟨60, 0, 0, []⟩ (by decide) (by decide)⟩

/-- C4.  Counterexample to push-only-on-change on every tick: on the
boundary tick from phase 0 to phase 1, T3 already displays "rrr" and the
new phase's first segment for T3 validates to the same "rrr", yet the tick
still performs that push (the phase-entry block pushes unconditionally). -/
theorem C4_counterexample :
    lookupState (⟨60, 0, 0, [("T3", "rrr")]⟩ : RunState).tl_states "T3" =
      "rrr" ∧
    (tick ["T3"] ⟨60, 0, 0, [("T3", "rrr")]⟩).2 = [("T3", "rrr")] := by
  refine ⟨by decide, by decide⟩

/-- C4 (amended).  On every non-boundary tick, each push the loop performs
changes the string its intersection currently displays, so consecutive
ticks resolving to identical strings produce zero redundant pushes; on
boundary ticks, however, the phase-entry block pushes the new phase's first
segment string unconditionally, even when it equals the previously pushed
string. -/
theorem C4_change_suppression_amended (tls : List String) (s : RunState)
    (h : has_phase_elapsed (getPhase s.current_phase)
      (tickUpdateElapsed s) = false) :
    noRedundant s.tl_states (tick tls s).2 = true := by
  unfold tick
  rw [if_neg (by simp [h])]
  exact updateTLs_noRedundant _ _ tls s.tl_states

/-- C4 witness: the amended statement evaluated on a mid-phase state where
T1 already displays the resolved "rrr", so the tick performs no push. -/
theorem C4_change_suppression_amended_witness :
    has_phase_elapsed
      (getPhase (⟨1, 0, 0, [("T1", "rrr")]⟩ : RunState).current_phase)
      (tickUpdateElapsed ⟨1, 0, 0, [("T1", "rrr")]⟩) = false ∧
    noRedundant (⟨1, 0, 0, [("T1", "rrr")]⟩ : RunState).tl_states
      (tick ["T1"] ⟨1, 0, 0, [("T1", "rrr")]⟩).2 = true :=
  ⟨by decide,
    C4_change_suppression_amended ["T1"] ⟨1, 0, 0, [("T1", "rrr")]⟩ (by decide)⟩

theorem runLoop_le (minE : Nat → Nat) (fuel step : Nat) :
    runLoop minE step fuel ≤ fuel := by
  induction fuel generalizing step with
  | zero => exact Nat.le_refl 0
  | succ n ih =>
    simp only [runLoop]
    split
    · exact Nat.succ_le_succ (ih (step + 1))
    · exact Nat.zero_le _

theorem runLoop_stop (minE : Nat → Nat) (fuel step : Nat)
    (h1 : step + runLoop minE step fuel < SIMULATION_TIME)
    (h2 : runLoop minE step fuel < fuel) :
    minE (step + runLoop minE step fuel) = 0 := by
  induction fuel generalizing step with
  | zero => exact absurd h2 (Nat.not_lt_zero _)
  | succ n ih =>
    by_cases hc : step < SIMULATION_TIME ∧ 0 < minE step
    · have hr : runLoop minE step (n + 1) = runLoop minE (step + 1) n + 1 := by
        simp only [runLoop, if_pos hc]
      rw [hr] at h1 h2 ⊢
      have e : step + (runLoop minE (step + 1) n + 1) =
          (step + 1) + runLoop minE (step + 1) n := by omega
      rw [e] at h1 ⊢
      exact ih (step + 1) h1 (by omega)
    · have hr : runLoop minE step (n + 1) = 0 := by
        simp only [runLoop, if_neg hc]
      rw [hr] at h1 ⊢
      rw [Nat.add_zero] at h1 ⊢
      rcases Nat.eq_zero_or_pos (minE step) with h0 | hpos
      · exact h0
      · exact absurd ⟨h1, hpos⟩ hc

/-- C7.  The main loop's body executes at most SIMULATION_TIME times, and
when it executes fewer times the external collaborator's remaining-entities
report at the stopping guard evaluation is 0. -/
theorem C7_termination_bound (minE : Nat → Nat) :
    loopIters minE ≤ SIMULATION_TIME ∧
    (loopIters minE < SIMULATION_TIME → minE (loopIters minE) = 0) := by
  constructor
  · exact runLoop_le minE SIMULATION_TIME 0
  · intro h
    have h1 : 0 + runLoop minE 0 SIMULATION_TIME < SIMULATION_TIME := by
      simpa [loopIters] using h
    have h0 := runLoop_stop minE SIMULATION_TIME 0 h1
      (by simpa [loopIters] using h)
    simpa [loopIters] using h0

/-- C7 witness: the bound evaluated on a collaborator that reports zero
remaining entities from the start. -/
theorem C7_termination_bound_witness :
    loopIters (fun _ => 0) ≤ SIMULATION_TIME ∧
    (loopIters (fun _ => 0) < SIMULATION_TIME →
      (fun _ => (0 : Nat)) (loopIters (fun _ => 0)) = 0) :=
  C7_termination_bound (fun _ => 0)

/-- C9.  On every exit path of the run — normal completion, the
zero-controllable-intersections early return, a fatal simulator error, or
any other unexpected error — and whether or not the close itself fails, the
close of the external simulator handle is attempted and no exception
propagates out of the function. -/
theorem C9_teardown_on_all_paths (outcome : BodyOutcome) (closeFails : Bool) :
    "close" ∈ (run_simulation_model outcome closeFails).1 ∧
    (run_simulation_model outcome closeFails).2 = Flow.done := by
  cases outcome <;> cases closeFails <;> exact ⟨by decide, by decide⟩

end FixedTimer
